import Mathlib

/-!
Verification development for the Reddit sentiment-analysis ingestion core.

The definitions below are a shallow embedding of the Python sources:
  * `src/sentiment_analysis/API/reddit.py`        (class `RedditAPI`)
  * `src/database/database_manager.py`            (class `DatabaseManager`)
  * `src/sentiment_analysis/_database/connection.py` (class `DBConnection`)
  * `src/sentiment_analysis/platform_managers.py` (class `RedditManager`)
  * `src/sentiment_analysis/_database/models.py`  (table schemas)

External effects (HTTP requests to the Pushshift / PRAW APIs) are modelled by
oracle functions supplied as arguments; the persistent store is modelled as an
explicit record of tables threaded through every operation.  Python dynamic
values that can be either `int` or `str` (the `params` dict entries) are
modelled by `PyVal`; Python exceptions are modelled by `PyErr` together with
`Except` / `Option` result types.
-/

/-- A Python value that is either an `int` or a `str` (the dynamic type of the
`params['before']` / `params['after']` entries in `RedditAPI.get_submissions`). -/
inductive PyVal where
  | vint (n : Int)
  | vstr (s : String)
deriving DecidableEq, Repr

/-- Decimal digit accumulation for `str_to_int`. -/
def parse_digits : List Char → Nat → Nat
  | [], acc => acc
  | c :: cs, acc => parse_digits cs (acc * 10 + (c.toNat - 48))

/-- Python `int(s)` on the decimal strings this pipeline produces
(`strftime` output): an optional sign followed by decimal digits. -/
def str_to_int (s : String) : Int :=
  match s.data with
  | '-' :: cs => - Int.ofNat (parse_digits cs 0)
  | cs => Int.ofNat (parse_digits cs 0)

/-- Decimal digit rendering for `strftime_s` (`fuel` bounds the recursion;
called with `fuel > n`). -/
def natToDigitsAux : Nat → Nat → List Char
  | 0, _ => []
  | fuel + 1, n =>
    if n < 10 then [Char.ofNat (48 + n)]
    else natToDigitsAux fuel (n / 10) ++ [Char.ofNat (48 + n % 10)]

/-- `datetime.strftime('%s')`: the epoch time rendered as a decimal string
(this is how `fetch_data` fills `params['before']` and `params['after']`). -/
def strftime_s (t : Int) : String :=
  match t with
  | .ofNat n => String.mk (natToDigitsAux (n + 1) n)
  | .negSucc m => String.mk ('-' :: natToDigitsAux (m + 2) (m + 1))

/-- Python `int(v)`: the identity on ints, decimal parsing on strings
(the strings built by `fetch_data` via `strftime` are decimal). -/
def pyInt (v : PyVal) : Int :=
  match v with
  | .vint n => n
  | .vstr s => str_to_int s

/-- The Python exceptions that the embedded code can raise. -/
inductive PyErr where
  | typeError        -- e.g. `str -= int` in the empty-page backoff
  | attributeError   -- e.g. `list.submission_id` when an empty fetch returns a list
  | prawError        -- a PRAW detail lookup on a bad or deleted ID
  | itemError        -- `pandas.Series.item()` on a series whose length is not 1
  | integrityError   -- a unique-constraint violation during a bulk insert
deriving DecidableEq, Repr

/-- One raw Pushshift search result (the fields requested by `fetch_data`). -/
structure PageItem where
  id : String
  created_utc : Int
  subreddit : String
  title : String
  score : Int
deriving DecidableEq, Repr

/-- One top-level comment as surfaced by PRAW inside `get_comments`. -/
structure CommentInfo where
  comment_id : String
  created_utc : Int
  body : String
  score : Int
deriving DecidableEq, Repr

/-- One row of the comments DataFrame built by `RedditAPI.get_comments`. -/
structure CommentData where
  created_utc : Int
  submission_id : String
  comment_id : String
  body : String
  score : Int
deriving DecidableEq, Repr

/-- One row of the DataFrame returned by `RedditAPI._process_submissions`:
the page fields with `id` renamed to `submission_id`, the `ticker` column
added and the score replaced by the freshly fetched one. -/
structure SubmissionRec where
  submission_id : String
  created_utc : Int
  subreddit : String
  title : String
  ticker : String
  score : Int
deriving DecidableEq, Repr

/-- One row of the DataFrame returned by `RedditManager.process_submissions`:
the subreddit name has been replaced by the stored surrogate `id` (an int)
under the column name `subreddit_id`, and the title has been normalized. -/
structure ProcessedSubmission where
  submission_id : String
  created_utc : Int
  subreddit_id : PyVal
  title : String
  ticker : String
  score : Int
deriving DecidableEq, Repr

/-- One row of the DataFrame returned by `RedditManager.process_comments`:
`body` renamed to `cleaned_comment` and normalized. -/
structure ProcessedComment where
  created_utc : Int
  submission_id : String
  comment_id : String
  cleaned_comment : String
  score : Int
deriving DecidableEq, Repr

/-- A persisted row of the `subreddits` table (`models.Subreddits`). -/
structure SubredditRow where
  rid : Nat                 -- the surrogate primary-key column `id`
  name : String
  subreddit_id : String     -- unique, the PRAW fullname, e.g. "t5_2th52"
  subscribers : Int
deriving DecidableEq, Repr

/-- A persisted row of the `reddit_submissions` table (`models.RedditSubmissions`).
The `subreddit_id` column is declared `String` with a foreign key to
`subreddits.subreddit_id`, but the pipeline writes the integer surrogate id of
the subreddit row into it, so it is modelled as a `PyVal`. -/
structure SubmissionRow where
  rid : Nat                 -- the surrogate primary-key column `id`
  ticker : String
  subreddit_id : PyVal
  submission_id : String    -- unique
  created_utc : Int
  title : String
  score : Int
deriving DecidableEq, Repr

/-- A persisted row of the `reddit_comments` table (`models.RedditComments`). -/
structure CommentRow where
  rid : Nat                 -- the surrogate primary-key column `id`
  submission_id : String
  comment_id : String       -- unique
  created_utc : Int
  cleaned_comment : String
  score : Int
deriving DecidableEq, Repr

/-- The persistent store: the three tables touched by the ingestion core plus
the autoincrement counters of their surrogate primary keys. -/
structure Store where
  subreddits : List SubredditRow
  submissions : List SubmissionRow
  comments : List CommentRow
  nextSubredditId : Nat
  nextSubmissionId : Nat
  nextCommentId : Nat
deriving DecidableEq, Repr

/-- One call issued against the persistent store (for reasoning about which
store operations a workflow performs). -/
inductive StoreCall where
  | readSubmissions
  | readSubreddits
  | readComments
  | insertSubmissions (n : Nat)
  | insertComments (n : Nat)
  | insertSubreddits (n : Nat)
  | updateSubmissionRows (n : Nat)
  | updateCommentRows (n : Nat)
deriving DecidableEq, Repr

/-- The external APIs, modelled as oracles:
`pages i` is the `data` array answered to the `i`-th page request of one
`get_submissions` call; `subDetail` / `commentDetail` answer one PRAW detail
lookup (`none` models a lookup that raises); `commentsOf` answers
`reddit.submission(id).comments` (`none` models a bad ID); `subredditInfo`
answers a subreddit lookup with `(subreddit_id, subscribers)`, `none`
subscribers modelling a missing count. -/
structure Oracles where
  pages : Nat → List PageItem
  subDetail : String → Option Int
  commentDetail : String → Option Int
  commentsOf : String → Option (List CommentInfo)
  subredditInfo : String → String × Option Int

/-- The request parameters of one `get_submissions` call (the entries of the
`params` dict that the loop reads). -/
structure SubQuery where
  ticker : String
  before : PyVal
  after : PyVal
  limit : Nat
deriving DecidableEq, Repr

/-- What `RedditAPI.get_submissions` returns: the Python function returns the
plain empty list when no submissions were accumulated, and a processed
DataFrame otherwise. -/
inductive FetchResult where
  | emptyList
  | frame (rows : List SubmissionRec)
deriving DecidableEq, Repr

/-- Modelled from the spec: `utils.strip_punctuation` lives in
`sentiment_analysis/utils.py`, which is not under `src/`; per the spec, text
normalization is "punctuation stripped, lower-cased", so this drops the ASCII
punctuation characters. -/
def strip_punctuation (s : String) : String :=
  String.mk (s.data.filter (fun c =>
    ¬ (['!', '\x22', '#', '$', '%', '&', '\x27', '(', ')', '*', '+', ',',
        '-', '.', '/', ':', ';', '<', '=', '>', '?', '@', '[', '\\', ']',
        '^', '_', '\x60', '\x7b', '|', '\x7d', '~'].contains c)))

/-- Python `str.lower()`: lower-case each character. -/
def py_lower (s : String) : String :=
  String.mk (s.data.map Char.toLower)

/-- The empty-page backoff window: `before_decay = 18000  # 18000s = 5hrs`. -/
def before_decay : Int := 18000

/-- The paging loop of `RedditAPI.get_submissions` (reddit.py lines 69-92).
`beforeL`, `afterL` and `limit` are the local snapshots `before = int(params['before'])`
etc. taken before the loop; they are never reassigned inside it.  `pBefore` is
the mutable `params['before']` entry, `subs` the accumulated `submissions`
list, `i` the index of the next page request.  The result is `none` when the
given fuel runs out with the loop still running, `some (.ok subs)` when the
loop condition became false, and `some (.error e)` when an uncaught exception
escaped the loop: a `TypeError` raised by `params['before'] -= before_decay`
inside the `except IndexError` handler is not caught by the sibling
`except Exception` clause and propagates. -/
def subLoop (pages : Nat → List PageItem) (beforeL afterL : Int) (limit : Nat) :
    Nat → PyVal → List PageItem → Nat → Option (Except PyErr (List PageItem))
  | 0, _, _, _ => none
  | fuel + 1, pBefore, subs, i =>
    if afterL < beforeL ∧ subs.length < limit then
      let data := pages i
      match data.getLast? with
      | some lastItem =>
        subLoop pages beforeL afterL limit fuel
          (.vint lastItem.created_utc) (subs ++ data) (i + 1)
      | none =>
        match pBefore with
        | .vint n => subLoop pages beforeL afterL limit fuel (.vint (n - before_decay)) subs (i + 1)
        | .vstr _ => some (.error .typeError)
    else
      some (.ok subs)

/-- `RedditAPI.get_submission_details` (reddit.py lines 218-241) specialized to
`fields=['id', 'score']`, its only use.  There is no exception handling in the
loop: a lookup that raises aborts the whole call. -/
def get_submission_details (ids : List String) (oracle : String → Option Int) :
    Except PyErr (List (String × Int)) :=
  match ids with
  | [] => .ok []
  | id :: rest =>
    match oracle id with
    | none => .error .prawError
    | some score =>
      match get_submission_details rest oracle with
      | .error e => .error e
      | .ok rows => .ok ((id, score) :: rows)

/-- `RedditAPI.get_comment_details` (reddit.py lines 243-266) specialized to
`fields=['id', 'score']`, its only use.  As in `get_submission_details`, there
is no exception handling: a lookup that raises aborts the whole call. -/
def get_comment_details (ids : List String) (oracle : String → Option Int) :
    Except PyErr (List (String × Int)) :=
  match ids with
  | [] => .ok []
  | id :: rest =>
    match oracle id with
    | none => .error .prawError
    | some score =>
      match get_comment_details rest oracle with
      | .error e => .error e
      | .ok rows => .ok ((id, score) :: rows)

/-- `RedditAPI.get_comments` (reddit.py lines 103-150): one lookup per
submission id; a bad ID is caught, logged and skipped (`try`/`except` around
the submission lookup), and the top-level comments of the others are
collected in order. -/
def get_comments (o : Oracles) (submission_ids : List String) : List CommentData :=
  submission_ids.flatMap (fun sid =>
    match o.commentsOf sid with
    | none => []
    | some cs => cs.map (fun c =>
        { created_utc := c.created_utc, submission_id := sid,
          comment_id := c.comment_id, body := c.body, score := c.score }))

/-- `RedditAPI._process_submissions` (reddit.py lines 152-186): add the ticker
column, fetch updated scores for every id (aborting if any lookup raises),
inner-merge on `id` (each left row paired with every matching right row, in
order), drop the stale score and rename `id` to `submission_id`. -/
def process_submissions_api (subs : List PageItem) (ticker : String)
    (oracle : String → Option Int) : Except PyErr (List SubmissionRec) :=
  match get_submission_details (subs.map (·.id)) oracle with
  | .error e => .error e
  | .ok updated_scores =>
    .ok (subs.flatMap (fun s =>
      (updated_scores.filter (fun u => decide (u.1 = s.id))).map (fun u =>
        { submission_id := s.id, created_utc := s.created_utc,
          subreddit := s.subreddit, title := s.title,
          ticker := ticker, score := u.2 })))

/-- `RedditAPI.get_submissions` (reddit.py lines 39-101): run the paging loop
from the given query, then — only when some submissions were accumulated —
convert them through `_process_submissions`; otherwise return the plain empty
list that `submissions` was initialized to. -/
def get_submissions (pages : Nat → List PageItem) (detail : String → Option Int)
    (q : SubQuery) (fuel : Nat) : Option (Except PyErr FetchResult) :=
  match subLoop pages (pyInt q.before) (pyInt q.after) q.limit fuel q.before [] 0 with
  | none => none
  | some (.error e) => some (.error e)
  | some (.ok subs) =>
    if subs.isEmpty then
      some (.ok .emptyList)
    else
      match process_submissions_api subs q.ticker detail with
      | .error e => some (.error e)
      | .ok rows => some (.ok (.frame rows))

/-- The persisted submission row built from one batch row and the autoincrement
value assigned to it. -/
def submissionRowOf (nid : Nat) (r : ProcessedSubmission) : SubmissionRow :=
  { rid := nid, ticker := r.ticker, subreddit_id := r.subreddit_id,
    submission_id := r.submission_id, created_utc := r.created_utc,
    title := r.title, score := r.score }

/-- The persisted comment row built from one batch row and the autoincrement
value assigned to it. -/
def commentRowOf (nid : Nat) (r : ProcessedComment) : CommentRow :=
  { rid := nid, submission_id := r.submission_id, comment_id := r.comment_id,
    created_utc := r.created_utc, cleaned_comment := r.cleaned_comment,
    score := r.score }

/-- The persisted subreddit row built from one `(name, subreddit_id,
subscribers)` value and the autoincrement value assigned to it. -/
def subredditRowOf (nid : Nat) (r : String × String × Int) : SubredditRow :=
  { rid := nid, name := r.1, subreddit_id := r.2.1, subscribers := r.2.2 }

/-- The body of `session.bulk_insert_mappings` for the submissions table:
the rows are executed one at a time inside the session's transaction; a row
whose unique `submission_id` already exists (in the table or among the rows
applied so far) raises an `IntegrityError`, leaving the earlier rows of the
batch applied in the still-open transaction.  Returns the transaction's row
list, the advanced autoincrement counter and the raised exception, if any. -/
def applyInsertSubmissions :
    List SubmissionRow → Nat → List ProcessedSubmission →
    List SubmissionRow × Nat × Option PyErr
  | cur, nid, [] => (cur, nid, none)
  | cur, nid, r :: rs =>
    if r.submission_id ∈ cur.map (·.submission_id) then
      (cur, nid, some .integrityError)
    else
      applyInsertSubmissions (cur ++ [submissionRowOf nid r]) (nid + 1) rs

/-- The body of `session.bulk_insert_mappings` for the comments table
(unique constraint on `comment_id`); see `applyInsertSubmissions`. -/
def applyInsertComments :
    List CommentRow → Nat → List ProcessedComment →
    List CommentRow × Nat × Option PyErr
  | cur, nid, [] => (cur, nid, none)
  | cur, nid, r :: rs =>
    if r.comment_id ∈ cur.map (·.comment_id) then
      (cur, nid, some .integrityError)
    else
      applyInsertComments (cur ++ [commentRowOf nid r]) (nid + 1) rs

/-- The body of `session.bulk_insert_mappings` for the subreddits table
(unique constraint on `subreddit_id`); the inserted values are
`(name, subreddit_id, subscribers)` triples; see `applyInsertSubmissions`. -/
def applyInsertSubreddits :
    List SubredditRow → Nat → List (String × String × Int) →
    List SubredditRow × Nat × Option PyErr
  | cur, nid, [] => (cur, nid, none)
  | cur, nid, r :: rs =>
    if r.2.1 ∈ cur.map (·.subreddit_id) then
      (cur, nid, some .integrityError)
    else
      applyInsertSubreddits (cur ++ [subredditRowOf nid r]) (nid + 1) rs

/-- `DatabaseManager.insert_values` on `models.RedditSubmissions`
(database_manager.py lines 42-64): the bulk insert runs inside
`with self.Connection as session`, and `DBConnection.__exit__`
(connection.py lines 19-21) commits the session unconditionally — also when an
exception was raised — so the rows applied before a failure persist and the
exception then propagates to the caller. -/
def insert_values_submissions (store : Store) (values : List ProcessedSubmission) :
    Store × Option PyErr :=
  match applyInsertSubmissions store.submissions store.nextSubmissionId values with
  | (cur, nid, err) =>
    ({ store with submissions := cur, nextSubmissionId := nid }, err)

/-- `DatabaseManager.insert_values` on `models.RedditComments`;
see `insert_values_submissions`. -/
def insert_values_comments (store : Store) (values : List ProcessedComment) :
    Store × Option PyErr :=
  match applyInsertComments store.comments store.nextCommentId values with
  | (cur, nid, err) =>
    ({ store with comments := cur, nextCommentId := nid }, err)

/-- `DatabaseManager.insert_values` on `models.Subreddits`;
see `insert_values_submissions`. -/
def insert_values_subreddits (store : Store) (values : List (String × String × Int)) :
    Store × Option PyErr :=
  match applyInsertSubreddits store.subreddits store.nextSubredditId values with
  | (cur, nid, err) =>
    ({ store with subreddits := cur, nextSubredditId := nid }, err)

/-- `DatabaseManager.update_values` on `models.RedditSubmissions` with
`on='submission_id'` and `values` of columns `[submission_id, score]`
(database_manager.py lines 67-95): read the whole table, inner-merge with the
new values on `submission_id` (suffixing the overlapping `score` column), then
the column clean-up loop keeps exactly the primary key `id` and the renamed
`score`, and `bulk_update_mappings` applies each `(id, score)` mapping in
order.  Returns the new store and the store calls performed. -/
def update_values_submissions (store : Store) (values : List (String × Int)) :
    Store × List StoreCall :=
  let original := store.submissions
  let merged := original.flatMap (fun r =>
    (values.filter (fun v => decide (v.1 = r.submission_id))).map (fun v => (r.rid, v.2)))
  let newSubs := merged.foldl
    (fun subs m => subs.map (fun r => if r.rid = m.1 then { r with score := m.2 } else r))
    store.submissions
  ({ store with submissions := newSubs },
   [.readSubmissions, .updateSubmissionRows merged.length])

/-- `DatabaseManager.update_values` on `models.RedditComments` with
`on='comment_id'`; see `update_values_submissions`. -/
def update_values_comments (store : Store) (values : List (String × Int)) :
    Store × List StoreCall :=
  let original := store.comments
  let merged := original.flatMap (fun r =>
    (values.filter (fun v => decide (v.1 = r.comment_id))).map (fun v => (r.rid, v.2)))
  let newComments := merged.foldl
    (fun cs m => cs.map (fun r => if r.rid = m.1 then { r with score := m.2 } else r))
    store.comments
  ({ store with comments := newComments },
   [.readComments, .updateCommentRows merged.length])

/-- `RedditManager.update_subreddits` (platform_managers.py lines 61-110) as
called from `process_submissions`, i.e. with a name list and `update_all=False`:
read the stored subreddits, keep the distinct candidate names not already
stored, and — when there are any — fetch their details (missing subscriber
counts filled with 0) and bulk-insert them. -/
def update_subreddits (o : Oracles) (store : Store) (subreddits_list : List String) :
    Store × Option PyErr :=
  let stored_subreddits := store.subreddits
  let existing_subs : List String := stored_subreddits.map (·.name)
  let new_subs := (subreddits_list.filter (fun s => decide (s ∉ existing_subs))).dedup
  if new_subs.isEmpty then
    (store, none)
  else
    let new_sub_info := new_subs.map (fun n =>
      match o.subredditInfo n with
      | (sid, subscribers) => (n, sid, subscribers.getD 0))
    insert_values_subreddits store new_sub_info

/-- The per-row body of the subreddit-name-to-id mapping in
`RedditManager.process_submissions` (platform_managers.py lines 142-144):
`stored_subreddits.id[stored_subreddits.name == x].item()` — the `id` column
(the integer surrogate key) of the stored rows whose `name` equals the
submission's subreddit, where `Series.item()` raises unless the filtered
series has exactly one element. -/
def lookup_subreddit_rid (stored : List SubredditRow) (name : String) :
    Except PyErr Nat :=
  match stored.filter (fun r => decide (r.name = name)) with
  | [r] => .ok r.rid
  | _ => .error .itemError

/-- The column rewrites of `RedditManager.process_submissions` applied to the
deduplicated rows (platform_managers.py lines 140-151): replace the subreddit
name by the stored surrogate id (renaming the column to `subreddit_id`) and
normalize the title; the first failing `item()` call aborts. -/
def map_subreddit_rows (stored : List SubredditRow) :
    List SubmissionRec → Except PyErr (List ProcessedSubmission)
  | [] => .ok []
  | r :: rs =>
    match lookup_subreddit_rid stored r.subreddit with
    | .error e => .error e
    | .ok rid =>
      match map_subreddit_rows stored rs with
      | .error e => .error e
      | .ok ps =>
        .ok ({ submission_id := r.submission_id, created_utc := r.created_utc,
               subreddit_id := .vint rid,
               title := py_lower (strip_punctuation r.title),
               ticker := r.ticker, score := r.score } :: ps)

/-- `RedditManager.process_submissions` (platform_managers.py lines 112-153).
Python receives here whatever `get_submissions` returned: calling
`.submission_id` on the plain empty list raises an `AttributeError`.  On a
DataFrame: drop the rows whose `submission_id` is already stored; if nothing
is left, log and return the empty frame; otherwise create the missing
subreddit rows, re-read the subreddits table and rewrite the columns.
Returns the store (mutated by the subreddit inserts), the processed rows and
the raised exception, if any. -/
def process_submissions (o : Oracles) (store : Store) (fetched : FetchResult) :
    Store × List ProcessedSubmission × Option PyErr :=
  match fetched with
  | .emptyList => (store, [], some .attributeError)
  | .frame rows =>
    let submission_ids := store.submissions.map (·.submission_id)
    let new_rows := rows.filter (fun r => decide (r.submission_id ∉ submission_ids))
    if new_rows.isEmpty then
      (store, [], none)
    else
      match update_subreddits o store (new_rows.map (·.subreddit)) with
      | (store1, some e) => (store1, [], some e)
      | (store1, none) =>
        let stored_subreddits := store1.subreddits
        match map_subreddit_rows stored_subreddits new_rows with
        | .error e => (store1, [], some e)
        | .ok processed => (store1, processed, none)

/-- `RedditManager.process_comments` (platform_managers.py lines 155-184):
drop the comments whose `comment_id` is already stored; if nothing is left,
log and return the empty frame, otherwise rename `body` to `cleaned_comment`
and normalize it. -/
def process_comments (store : Store) (comments : List CommentData) :
    List ProcessedComment :=
  let comment_ids := store.comments.map (·.comment_id)
  let filtered := comments.filter (fun c => decide (c.comment_id ∉ comment_ids))
  if filtered.isEmpty then
    []
  else
    filtered.map (fun c =>
      { created_utc := c.created_utc, submission_id := c.submission_id,
        comment_id := c.comment_id,
        cleaned_comment := py_lower (strip_punctuation c.body),
        score := c.score })

/-- `RedditManager.update_comments` (platform_managers.py lines 241-263):
fetch updated scores for the given comments (a failing lookup aborts the call)
and write them back by `comment_id`. -/
def update_comments (o : Oracles) (store : Store) (comments : List CommentData) :
    Store × List StoreCall × Option PyErr :=
  match get_comment_details (comments.map (·.comment_id)) o.commentDetail with
  | .error e => (store, [], some e)
  | .ok updated_comments =>
    match update_values_comments store updated_comments with
    | (store1, calls) => (store1, calls, none)

/-- The comment half of the per-ticker loop of `RedditManager.update_submissions`
(platform_managers.py lines 223-239): fetch the comments of the given
submissions, insert the new ones, and refresh the scores of the already-stored
ones through `update_comments`. -/
def update_submissions_comment_phase (o : Oracles) (store1 : Store)
    (submission_ids : List String) : Store × List StoreCall × Option PyErr :=
  let comments := get_comments o submission_ids
  let processed_comments := process_comments store1 comments
  match
    (if processed_comments.isEmpty then
      (store1, ([] : List StoreCall), (none : Option PyErr))
    else
      match insert_values_comments store1 processed_comments with
      | (s, e) => (s, [.insertComments processed_comments.length], e)) with
  | (store2, calls2, some e) => (store2, .readComments :: calls2, some e)
  | (store2, calls2, none) =>
    let old_comments := comments.filter (fun c =>
      decide (c.comment_id ∉ processed_comments.map (·.comment_id)))
    if old_comments.isEmpty then
      (store2, .readComments :: calls2, none)
    else
      match update_comments o store2 old_comments with
      | (store3, calls3, e3) => (store3, .readComments :: calls2 ++ calls3, e3)

/-- The body of the per-ticker loop of `RedditManager.update_submissions`
(platform_managers.py lines 196-239): read the stored submission ids matching
the ticker and date range, refresh their scores, then run the comment phase.
The store-call list records every store operation in order; the first raised
exception aborts. -/
def update_submissions_ticker (o : Oracles) (store : Store) (ticker : String)
    (d1 d2 : Int) : Store × List StoreCall × Option PyErr :=
  let submission_ids := (store.submissions.filter (fun r =>
    decide (r.ticker = ticker ∧ d1 ≤ r.created_utc ∧ r.created_utc ≤ d2))).map
      (·.submission_id)
  match get_submission_details submission_ids o.subDetail with
  | .error e => (store, [.readSubmissions], some e)
  | .ok updated_submissions =>
    match update_values_submissions store updated_submissions with
    | (store1, calls1) =>
      match update_submissions_comment_phase o store1 submission_ids with
      | (store2, calls2, e2) => (store2, .readSubmissions :: calls1 ++ calls2, e2)

/-- `RedditManager.update_submissions` (platform_managers.py lines 186-239):
the per-ticker body iterated over the ticker list; an exception raised for one
ticker aborts the whole call. -/
def update_submissions (o : Oracles) (store : Store) :
    List String → Int → Int → Store × List StoreCall × Option PyErr
  | [], _, _ => (store, [], none)
  | t :: ts, d1, d2 =>
    match update_submissions_ticker o store t d1 d2 with
    | (store1, calls1, some e) => (store1, calls1, some e)
    | (store1, calls1, none) =>
      match update_submissions o store1 ts d1 d2 with
      | (store2, calls2, e2) => (store2, calls1 ++ calls2, e2)

/-- `RedditManager.fetch_data` (platform_managers.py lines 265-324): build the
query (the `before` / `after` parameters are the `strftime` **strings** of the
given epoch times), run the paginated fetch, process and insert the new
submissions, then fetch, process and insert their new comments.  `none` means
the paging loop did not finish within the given fuel; otherwise the resulting
store is returned together with the raised exception, if any. -/
def fetch_data (o : Oracles) (fuel : Nat) (store : Store) (ticker : String)
    (limit : Nat) (before after : Int) : Option (Store × Option PyErr) :=
  let q : SubQuery :=
    { ticker := ticker, before := .vstr (strftime_s before),
      after := .vstr (strftime_s after), limit := limit }
  match get_submissions o.pages o.subDetail q fuel with
  | none => none
  | some (.error e) => some (store, some e)
  | some (.ok fetched) =>
    match process_submissions o store fetched with
    | (store1, _, some e) => some (store1, some e)
    | (store1, processed, none) =>
      if processed.isEmpty then
        some (store1, none)
      else
        match insert_values_submissions store1 processed with
        | (store2, some e) => some (store2, some e)
        | (store2, none) =>
          let comments := get_comments o (processed.map (·.submission_id))
          let processed_comments := process_comments store2 comments
          if processed_comments.isEmpty then
            some (store2, none)
          else
            match insert_values_comments store2 processed_comments with
            | (store3, e) => some (store3, e)

/-- The projection of a persisted submission row onto every column except the
mutable `score`: the surrogate key, ticker, subreddit reference, unique id,
creation time and title. -/
def submission_frame_cols (r : SubmissionRow) :
    Nat × String × PyVal × String × Int × String :=
  (r.rid, r.ticker, r.subreddit_id, r.submission_id, r.created_utc, r.title)

/-- The longest batch prefix that a bulk submission insert applies before
hitting a unique-constraint violation, characterized independently of the
session fold: walk the batch, stopping at the first row whose `submission_id`
is already taken (by the table or by an earlier batch row). -/
def insertable_rows (ids : List String) : List ProcessedSubmission → List ProcessedSubmission
  | [] => []
  | r :: rs =>
    if r.submission_id ∈ ids then []
    else r :: insertable_rows (ids ++ [r.submission_id]) rs

/-- A store with all three tables empty and fresh autoincrement counters. -/
def emptyStore : Store :=
  { subreddits := [], submissions := [], comments := [],
    nextSubredditId := 1, nextSubmissionId := 1, nextCommentId := 1 }

/-- Oracles for a query window containing zero matching items: every page
request is answered with an empty `data` array. -/
def emptyWindowOracles : Oracles :=
  { pages := fun _ => [], subDetail := fun _ => none, commentDetail := fun _ => none,
    commentsOf := fun _ => none, subredditInfo := fun _ => ("", none) }

/-- Oracles of a small healthy source: one page with one submission `s1`
(score 2, stale), whose detail lookup answers score 7, with one comment `c1`;
the subreddit `wsb` resolves to fullname `t5_2th52` with 9 subscribers. -/
def happyOracles : Oracles :=
  { pages := fun i =>
      if i = 0 then
        [{ id := "s1", created_utc := 50, subreddit := "wsb", title := "GME", score := 2 }]
      else []
    subDetail := fun id => if id = "s1" then some 7 else none
    commentDetail := fun _ => none
    commentsOf := fun sid =>
      if sid = "s1" then
        some [{ comment_id := "c1", created_utc := 60, body := "buy!", score := 4 }]
      else none
    subredditInfo := fun n => if n = "wsb" then ("t5_2th52", some 9) else ("t5_x", none) }

/-- The store produced by one successful `fetch_data` run of `happyOracles`
against the empty store. -/
def happyStore : Store :=
  { subreddits := [{ rid := 1, name := "wsb", subreddit_id := "t5_2th52", subscribers := 9 }],
    submissions := [{ rid := 1, ticker := "GME", subreddit_id := .vint 1,
                      submission_id := "s1", created_utc := 50, title := "gme", score := 7 }],
    comments := [{ rid := 1, submission_id := "s1", comment_id := "c1",
                   created_utc := 60, cleaned_comment := "buy", score := 4 }],
    nextSubredditId := 2, nextSubmissionId := 2, nextCommentId := 2 }

/-- A store holding exactly one submission `s0`. -/
def oneSubmissionStore : Store :=
  { subreddits := [], comments := [], nextSubredditId := 1, nextCommentId := 1,
    nextSubmissionId := 2,
    submissions := [{ rid := 1, ticker := "GME", subreddit_id := .vint 1,
                      submission_id := "s0", created_utc := 10, title := "t", score := 0 }] }

/-- A two-row batch whose second row collides with the stored submission `s0`:
its bulk insert applies the first row, then raises. -/
def collidingBatch : List ProcessedSubmission :=
  [{ submission_id := "s1", created_utc := 11, subreddit_id := .vint 1,
     title := "a", ticker := "GME", score := 1 },
   { submission_id := "s0", created_utc := 12, subreddit_id := .vint 1,
     title := "b", ticker := "GME", score := 2 }]

/-- A store holding one subreddit row: surrogate key 1, name `wallstreetbets`,
unique fullname `t5_2th52`. -/
def wsbStore : Store :=
  { subreddits := [{ rid := 1, name := "wallstreetbets", subreddit_id := "t5_2th52",
                     subscribers := 100 }],
    submissions := [], comments := [],
    nextSubredditId := 2, nextSubmissionId := 1, nextCommentId := 1 }

/-- A fetched frame with a single new submission in `wallstreetbets`. -/
def wsbFrame : FetchResult :=
  .frame [{ submission_id := "s1", created_utc := 5, subreddit := "wallstreetbets",
            title := "GME", ticker := "GME", score := 3 }]

/-- A detail oracle that resolves ids `a` (score 1) and `c` (score 3) and fails
on every other id, in particular on `b`. -/
def failOnB : String → Option Int := fun id =>
  if id = "a" then some 1 else if id = "c" then some 3 else none

/-- A query with an integer cursor, `before0 > after` and a positive limit. -/
def stuckQuery : SubQuery :=
  { ticker := "GME", before := .vint 100000, after := .vint 0, limit := 10 }

/-- A store holding one comment `c1`. -/
def oneCommentStore : Store :=
  { subreddits := [], submissions := [],
    comments := [{ rid := 1, submission_id := "s1", comment_id := "c1",
                   created_utc := 1, cleaned_comment := "x", score := 5 }],
    nextSubredditId := 1, nextSubmissionId := 1, nextCommentId := 2 }

/-- A fetched comment batch: `c1` is already stored in `oneCommentStore`,
`c2` is new. -/
def mixedCommentBatch : List CommentData :=
  [{ created_utc := 1, submission_id := "s1", comment_id := "c1",
     body := "x!", score := 6 },
   { created_utc := 2, submission_id := "s1", comment_id := "c2",
     body := "y", score := 9 }]

theorem subLoop_empty_pages_none (beforeL afterL : Int) (limit : Nat)
    (hba : afterL < beforeL) (hlim : 0 < limit) :
    ∀ (fuel : Nat) (b : Int) (i : Nat),
      subLoop (fun _ => []) beforeL afterL limit fuel (.vint b) [] i = none := by
  intro fuel
  induction fuel with
  | zero => intro b i; rfl
  | succ n ih =>
    intro b i
    unfold subLoop
    rw [if_pos ⟨hba, by simpa using hlim⟩]
    exact ih (b - before_decay) (i + 1)

/-- C1: the loop condition of `get_submissions` reads the local snapshots
`before`, `after`, `limit`, which are never reassigned inside the loop — only
`params['before']` is decremented.  Hence on a query with an integer cursor,
`before0 > after` and positive limit, a source that keeps answering empty
pages makes the loop run forever (no fuel suffices), instead of exiting once
the cursor falls to or below `after`. -/
theorem get_submissions_never_exits_on_empty_pages
    (q : SubQuery) (detail : String → Option Int) (b : Int) (fuel : Nat)
    (hb : q.before = .vint b) (hba : pyInt q.after < pyInt q.before)
    (hlim : 0 < q.limit) :
    get_submissions (fun _ => []) detail q fuel = none := by
  rw [hb] at hba
  unfold get_submissions
  rw [hb, subLoop_empty_pages_none (pyInt (.vint b)) (pyInt q.after) q.limit hba hlim fuel b 0]

/-- Witness for C1 at the concrete stuck query and fuel 5. -/
theorem get_submissions_never_exits_on_empty_pages_witness :
    stuckQuery.before = .vint 100000
    ∧ pyInt stuckQuery.after < pyInt stuckQuery.before
    ∧ 0 < stuckQuery.limit
    ∧ get_submissions (fun _ => []) (fun _ => none) stuckQuery 5 = none :=
  ⟨rfl, by decide, by decide,
    get_submissions_never_exits_on_empty_pages stuckQuery (fun _ => none) 100000 5
      rfl (by decide) (by decide)⟩

theorem subLoop_first_page_empty_vstr (pages : Nat → List PageItem)
    (beforeL afterL : Int) (limit : Nat) (s : String) (n i : Nat)
    (hba : afterL < beforeL) (hlim : 0 < limit) (hp : pages i = []) :
    subLoop pages beforeL afterL limit (n + 1) (.vstr s) [] i
      = some (.error .typeError) := by
  unfold subLoop
  rw [if_pos ⟨hba, by simpa using hlim⟩, hp]
  rfl

/-- C10: when `get_submissions` receives the `before` cursor as a string (as
`fetch_data` builds it via `strftime`) and the first page comes back empty,
the backoff `params['before'] -= before_decay` subtracts an int from a str;
the `TypeError` is raised inside the `except IndexError` handler, is not
caught by the sibling `except Exception` clause, and propagates out of the
call, which therefore returns no items. -/
theorem get_submissions_string_cursor_typeerror
    (pages : Nat → List PageItem) (detail : String → Option Int) (q : SubQuery)
    (s : String) (fuel : Nat)
    (hb : q.before = .vstr s) (hba : pyInt q.after < pyInt q.before)
    (hlim : 0 < q.limit) (hp : pages 0 = []) (hf : 0 < fuel) :
    get_submissions pages detail q fuel = some (.error .typeError) := by
  obtain ⟨n, rfl⟩ : ∃ n, fuel = n + 1 := ⟨fuel - 1, by omega⟩
  rw [hb] at hba
  unfold get_submissions
  rw [hb, subLoop_first_page_empty_vstr pages (pyInt (.vstr s)) (pyInt q.after)
    q.limit s n 0 hba hlim hp]

/-- Witness for C10 at the concrete query built from `before=100000`,
`after=0` as decimal strings. -/
theorem get_submissions_string_cursor_typeerror_witness :
    ({ ticker := "GME", before := .vstr "100000", after := .vstr "0",
       limit := 10 } : SubQuery).before = .vstr "100000"
    ∧ get_submissions (fun _ => []) (fun _ => none)
        { ticker := "GME", before := .vstr "100000", after := .vstr "0", limit := 10 } 3
        = some (.error .typeError) :=
  ⟨rfl,
    get_submissions_string_cursor_typeerror (fun _ => []) (fun _ => none)
      { ticker := "GME", before := .vstr "100000", after := .vstr "0", limit := 10 }
      "100000" 3 rfl (by decide) (by decide) rfl (by decide)⟩

/-- C7: on a window with zero matching items (`before=100000 > after=0`,
every page empty), `fetch_data` does not stop cleanly with an empty result:
the paging loop raises a `TypeError` on the first empty page (string cursor
minus int backoff) and the exception propagates out of the workflow, with
nothing inserted. -/
theorem fetch_data_empty_window_typeerror :
    fetch_data emptyWindowOracles 3 emptyStore "GME" 10 100000 0
      = some (emptyStore, some .typeError) := by decide

/-- C3: `process_submissions` maps each submission's subreddit name to the
stored **surrogate key** `subreddits.id` (here the integer 1), not to the
stored `subreddits.subreddit_id` column (here the string `t5_2th52`) that the
`reddit_submissions.subreddit_id` foreign key is declared against; the value
written into the Submission rows therefore never equals the stored
`subreddit_id` of the Subreddit row. -/
theorem process_submissions_writes_surrogate_id :
    (process_submissions emptyWindowOracles wsbStore wsbFrame).2.1.map (·.subreddit_id)
      = [.vint 1]
    ∧ (process_submissions emptyWindowOracles wsbStore wsbFrame).2.2 = none
    ∧ wsbStore.subreddits.map (·.subreddit_id) = ["t5_2th52"]
    ∧ PyVal.vint 1 ≠ PyVal.vstr "t5_2th52" := by decide

/-- Counterexample for C5: with ids `[a, b, c]` where only `b` fails, the
detail fetch raises and returns no rows at all — in particular no row for the
successfully resolvable `c` that follows the failing `b`. -/
theorem get_submission_details_aborts_concrete :
    get_submission_details ["a", "b", "c"] failOnB = .error .prawError
    ∧ get_submission_details ["a", "b", "c"] failOnB
        ≠ .ok [("a", (1 : Int)), ("c", 3)] :=
  ⟨rfl, fun h => Except.noConfusion h⟩

theorem get_submission_details_error_of_mem
    (ids : List String) (oracle : String → Option Int) (id : String)
    (hmem : id ∈ ids) (hfail : oracle id = none) :
    get_submission_details ids oracle = .error .prawError := by
  induction ids with
  | nil => cases hmem
  | cons x xs ih =>
    unfold get_submission_details
    cases hx : oracle x with
    | none => rfl
    | some v =>
      rcases List.mem_cons.mp hmem with rfl | hmem2
      · rw [hfail] at hx; cases hx
      · rw [ih hmem2]

theorem get_comment_details_error_of_mem
    (ids : List String) (oracle : String → Option Int) (id : String)
    (hmem : id ∈ ids) (hfail : oracle id = none) :
    get_comment_details ids oracle = .error .prawError := by
  induction ids with
  | nil => cases hmem
  | cons x xs ih =>
    unfold get_comment_details
    cases hx : oracle x with
    | none => rfl
    | some v =>
      rcases List.mem_cons.mp hmem with rfl | hmem2
      · rw [hfail] at hx; cases hx
      · rw [ih hmem2]

/-- C5 (amended): in `get_submission_details` and `get_comment_details` there
is no per-ID exception handling: one failing lookup anywhere in the ID list
aborts the whole call with the raised error, returning no rows — not even for
IDs that resolve successfully. -/
theorem detail_lookup_failure_aborts_call
    (ids : List String) (oracle : String → Option Int) (id : String)
    (hmem : id ∈ ids) (hfail : oracle id = none) :
    get_submission_details ids oracle = .error .prawError
    ∧ get_comment_details ids oracle = .error .prawError :=
  ⟨get_submission_details_error_of_mem ids oracle id hmem hfail,
   get_comment_details_error_of_mem ids oracle id hmem hfail⟩

/-- Witness for the amended C5 at ids `[a, b, c]` with `b` failing. -/
theorem detail_lookup_failure_aborts_call_witness :
    ("b" ∈ ["a", "b", "c"] ∧ failOnB "b" = none)
    ∧ (get_submission_details ["a", "b", "c"] failOnB = .error .prawError
       ∧ get_comment_details ["a", "b", "c"] failOnB = .error .prawError) :=
  ⟨⟨by decide, by decide⟩,
   detail_lookup_failure_aborts_call ["a", "b", "c"] failOnB "b" (by decide) (by decide)⟩

/-- Counterexample for C2: inserting `collidingBatch` into
`oneSubmissionStore` raises an `IntegrityError` on the second row, yet the
store after the failed call differs from the store before it — the first row
of the batch was applied and `DBConnection.__exit__` committed it. -/
theorem insert_failure_commits_partial_write :
    (insert_values_submissions oneSubmissionStore collidingBatch).2
      = some .integrityError
    ∧ (insert_values_submissions oneSubmissionStore collidingBatch).1
        ≠ oneSubmissionStore := by decide

theorem applyInsertSubmissions_spec :
    ∀ (values : List ProcessedSubmission) (cur : List SubmissionRow) (nid : Nat),
      ((applyInsertSubmissions cur nid values).1.map (·.submission_id)
        = cur.map (·.submission_id)
          ++ (insertable_rows (cur.map (·.submission_id)) values).map (·.submission_id))
      ∧ ((applyInsertSubmissions cur nid values).2.2 = none
          ↔ insertable_rows (cur.map (·.submission_id)) values = values) := by
  intro values
  induction values with
  | nil =>
    intro cur nid
    refine ⟨by simp [applyInsertSubmissions, insertable_rows], ?_⟩
    simp [applyInsertSubmissions, insertable_rows]
  | cons r rs ih =>
    intro cur nid
    unfold applyInsertSubmissions insertable_rows
    by_cases hmem : r.submission_id ∈ cur.map (·.submission_id)
    · rw [if_pos hmem, if_pos hmem]
      constructor
      · simp
      · simp
    · rw [if_neg hmem, if_neg hmem]
      have hcur :
          (cur ++ [submissionRowOf nid r]).map (fun x => x.submission_id)
            = cur.map (fun x => x.submission_id) ++ [r.submission_id] := by
        simp [submissionRowOf]
      obtain ⟨ih1, ih2⟩ := ih (cur ++ [submissionRowOf nid r]) (nid + 1)
      rw [hcur] at ih1 ih2
      constructor
      · rw [ih1]; simp
      · rw [ih2]; simp

/-- C2 (amended): `DBConnection.__exit__` commits unconditionally — also when
an exception was raised inside the session — so a failed bulk insert is *not*
rolled back: the persisted submission ids afterwards are the prior ids
extended by exactly the batch prefix applied before the violating row, and the
call raises precisely when that prefix is proper. -/
theorem insert_values_commits_applied_rows
    (store : Store) (values : List ProcessedSubmission) :
    ((insert_values_submissions store values).1.submissions.map (·.submission_id)
      = store.submissions.map (·.submission_id)
        ++ (insertable_rows (store.submissions.map (·.submission_id)) values).map
            (·.submission_id))
    ∧ ((insert_values_submissions store values).2 = none
        ↔ insertable_rows (store.submissions.map (·.submission_id)) values
            = values) :=
  applyInsertSubmissions_spec values store.submissions store.nextSubmissionId

theorem map_cols_update_step (subs : List SubmissionRow) (m : Nat × Int) :
    (subs.map (fun r => if r.rid = m.1 then { r with score := m.2 } else r)).map
        submission_frame_cols
      = subs.map submission_frame_cols := by
  rw [List.map_map]
  apply List.map_congr_left
  intro r _
  by_cases h : r.rid = m.1 <;> simp [h, submission_frame_cols]

theorem map_cols_foldl (ms : List (Nat × Int)) :
    ∀ (subs : List SubmissionRow),
      (ms.foldl
          (fun subs m =>
            subs.map (fun r => if r.rid = m.1 then { r with score := m.2 } else r))
          subs).map submission_frame_cols
        = subs.map submission_frame_cols := by
  induction ms with
  | nil => intro subs; rfl
  | cons m ms ih =>
    intro subs
    rw [List.foldl_cons, ih, map_cols_update_step]

theorem update_values_submissions_cols (store : Store) (values : List (String × Int)) :
    ((update_values_submissions store values).1.submissions).map submission_frame_cols
      = store.submissions.map submission_frame_cols := by
  unfold update_values_submissions
  exact map_cols_foldl _ _

theorem insert_values_comments_submissions (store : Store) (v : List ProcessedComment) :
    ((insert_values_comments store v).1).submissions = store.submissions := rfl

theorem update_values_comments_submissions (store : Store) (v : List (String × Int)) :
    ((update_values_comments store v).1).submissions = store.submissions := rfl

theorem update_comments_submissions (o : Oracles) (store : Store)
    (cs : List CommentData) :
    ((update_comments o store cs).1).submissions = store.submissions := by
  unfold update_comments
  cases get_comment_details (cs.map (·.comment_id)) o.commentDetail with
  | error e => rfl
  | ok u => rfl

theorem update_submissions_comment_phase_submissions (o : Oracles) (s : Store)
    (ids : List String) :
    ((update_submissions_comment_phase o s ids).1).submissions = s.submissions := by
  unfold update_submissions_comment_phase
  dsimp only []
  split
  · next store2 calls2 e heq =>
    split at heq
    · cases heq
    · have h2 := congrArg (fun p => p.1) heq
      simp only [] at h2
      rw [← h2]
      exact insert_values_comments_submissions s _
  · next store2 calls2 heq =>
    have hsub2 : store2.submissions = s.submissions := by
      split at heq
      · cases heq; rfl
      · have h2 := congrArg (fun p => p.1) heq
        simp only [] at h2
        rw [← h2]
        exact insert_values_comments_submissions s _
    split
    · exact hsub2
    · simp only [update_comments_submissions, hsub2]

theorem update_submissions_ticker_cols (o : Oracles) (store : Store)
    (t : String) (d1 d2 : Int) :
    ((update_submissions_ticker o store t d1 d2).1.submissions).map
        submission_frame_cols
      = store.submissions.map submission_frame_cols := by
  unfold update_submissions_ticker
  dsimp only []
  split
  · rfl
  · next updated heq =>
    show ((update_submissions_comment_phase o
        (update_values_submissions store updated).1 _).1.submissions).map
          submission_frame_cols
      = store.submissions.map submission_frame_cols
    rw [update_submissions_comment_phase_submissions,
      update_values_submissions_cols]

/-- C4: `update_submissions` only ever rewrites the `score` column of the
submissions table (`update_values` reduces the merged frame to the primary key
`id` plus the renamed `score` before `bulk_update_mappings`; the comment
inserts and comment updates do not touch the submissions table), so every
persisted Submission row keeps its `title`, `created_utc` — and every other
non-score column — across the call. -/
theorem update_submissions_preserves_title_created_utc
    (o : Oracles) (store : Store) (tickers : List String) (d1 d2 : Int) :
    ((update_submissions o store tickers d1 d2).1.submissions).map
        submission_frame_cols
      = store.submissions.map submission_frame_cols := by
  induction tickers generalizing store with
  | nil => rfl
  | cons t ts ih =>
    unfold update_submissions
    split
    · next store1 calls1 e heq =>
      have h1 := update_submissions_ticker_cols o store t d1 d2
      rw [heq] at h1
      exact h1
    · next store1 calls1 heq =>
      have h1 := update_submissions_ticker_cols o store t d1 d2
      rw [heq] at h1
      dsimp only []
      show ((update_submissions o store1 ts d1 d2).1.submissions).map
          submission_frame_cols
        = store.submissions.map submission_frame_cols
      rw [ih store1]
      exact h1

/-- C9: during `update_submissions`, a fetched comment batch is partitioned
exactly by membership of `comment_id` in the store: a batch comment's id is
among the processed (to-insert) ids iff it is not stored, and the comment is
in `old_comments` (the update-by-key path, as computed by
`update_submissions_comment_phase`) iff it is stored — never both, never
neither. -/
theorem update_submissions_comment_partition
    (store : Store) (batch : List CommentData) (c : CommentData)
    (hmem : c ∈ batch) :
    (c.comment_id ∈ (process_comments store batch).map (·.comment_id)
       ↔ c.comment_id ∉ store.comments.map (·.comment_id))
    ∧ (c ∈ batch.filter (fun x =>
         decide (x.comment_id ∉ (process_comments store batch).map (·.comment_id)))
       ↔ c.comment_id ∈ store.comments.map (·.comment_id)) := by
  have hids : (process_comments store batch).map (·.comment_id)
      = (batch.filter (fun x =>
          decide (x.comment_id ∉ store.comments.map (·.comment_id)))).map
            (·.comment_id) := by
    unfold process_comments
    dsimp only []
    split
    · next h =>
      rw [List.isEmpty_iff.mp h]
      rfl
    · rw [List.map_map]
      rfl
  have hfirst : c.comment_id ∈ (process_comments store batch).map (·.comment_id)
      ↔ c.comment_id ∉ store.comments.map (·.comment_id) := by
    rw [hids]
    constructor
    · intro h
      obtain ⟨x, hx, hxe⟩ := List.mem_map.mp h
      obtain ⟨hxb, hxp⟩ := List.mem_filter.mp hx
      rw [← hxe]
      exact of_decide_eq_true hxp
    · intro h
      exact List.mem_map.mpr ⟨c, List.mem_filter.mpr ⟨hmem, decide_eq_true h⟩, rfl⟩
  refine ⟨hfirst, ?_⟩
  rw [List.mem_filter]
  constructor
  · rintro ⟨-, hp⟩
    by_contra hc
    exact of_decide_eq_true hp (hfirst.mpr hc)
  · intro h
    exact ⟨hmem, decide_eq_true (fun hin => hfirst.mp hin h)⟩

/-- Witness for C9: `c1` is stored, so it lands on the update path and not
among the processed inserts. -/
theorem update_submissions_comment_partition_witness :
    (mixedCommentBatch.head? = some
        { created_utc := 1, submission_id := "s1", comment_id := "c1",
          body := "x!", score := 6 })
    ∧ (({ created_utc := 1, submission_id := "s1", comment_id := "c1",
          body := "x!", score := 6 } : CommentData).comment_id
          ∈ (process_comments oneCommentStore mixedCommentBatch).map (·.comment_id)
        ↔ ({ created_utc := 1, submission_id := "s1", comment_id := "c1",
             body := "x!", score := 6 } : CommentData).comment_id
            ∉ oneCommentStore.comments.map (·.comment_id))
    ∧ (({ created_utc := 1, submission_id := "s1", comment_id := "c1",
          body := "x!", score := 6 } : CommentData) ∈ mixedCommentBatch.filter (fun x =>
          decide (x.comment_id
            ∉ (process_comments oneCommentStore mixedCommentBatch).map (·.comment_id)))
        ↔ ({ created_utc := 1, submission_id := "s1", comment_id := "c1",
             body := "x!", score := 6 } : CommentData).comment_id
            ∈ oneCommentStore.comments.map (·.comment_id)) :=
  ⟨by decide,
   update_submissions_comment_partition oneCommentStore mixedCommentBatch
     { created_utc := 1, submission_id := "s1", comment_id := "c1",
       body := "x!", score := 6 } (by decide)⟩

theorem update_values_submissions_nil (store : Store) :
    update_values_submissions store []
      = (store, [.readSubmissions, .updateSubmissionRows 0]) := by
  unfold update_values_submissions
  dsimp only []
  have hm : store.submissions.flatMap (fun r =>
      (List.filter (fun v => decide (v.1 = r.submission_id))
        ([] : List (String × Int))).map (fun v => (r.rid, v.2))) = [] := by
    simp
  rw [hm]
  rfl

theorem update_submissions_comment_phase_nil (o : Oracles) (store : Store) :
    update_submissions_comment_phase o store [] = (store, [.readComments], none) := rfl

theorem update_submissions_ticker_empty_range (o : Oracles) (store : Store)
    (t : String) (d1 d2 : Int)
    (hempty : store.submissions.filter (fun r =>
        decide (r.ticker = t ∧ d1 ≤ r.created_utc ∧ r.created_utc ≤ d2)) = []) :
    update_submissions_ticker o store t d1 d2
      = (store, [.readSubmissions, .readSubmissions, .updateSubmissionRows 0,
                 .readComments], none) := by
  unfold update_submissions_ticker
  dsimp only []
  rw [hempty]
  dsimp only [List.map_nil, get_submission_details]
  rw [update_values_submissions_nil, update_submissions_comment_phase_nil]
  rfl

theorem update_submissions_nil_tickers (o : Oracles) (store : Store) (d1 d2 : Int) :
    update_submissions o store [] d1 d2 = (store, [], none) := rfl

/-- Counterexample for C6: on an empty store (so no submissions match the
ticker/date filter), `update_submissions` performs four store calls — the
initial filtered read, then inside `update_values` a full-table read and an
(empty) bulk-update call, then the comments-table read — not just the single
initial read the claim allows. -/
theorem update_submissions_empty_range_extra_calls :
    (update_submissions emptyWindowOracles emptyStore ["GME"] 0 100).2.1
      = [.readSubmissions, .readSubmissions, .updateSubmissionRows 0, .readComments]
    ∧ (update_submissions emptyWindowOracles emptyStore ["GME"] 0 100).2.1
        ≠ [.readSubmissions] := by decide

/-- C6 (amended): when no stored submission matches the ticker and date range,
`update_submissions` completes without error and without mutating the store;
beyond the initial (empty) read it still issues a full submissions-table read,
a bulk-update call carrying zero rows, and a comments-table read — but no
insert call and no row-carrying update. -/
theorem update_submissions_empty_range_no_writes (o : Oracles) (store : Store)
    (t : String) (d1 d2 : Int)
    (hempty : store.submissions.filter (fun r =>
        decide (r.ticker = t ∧ d1 ≤ r.created_utc ∧ r.created_utc ≤ d2)) = []) :
    update_submissions o store [t] d1 d2
      = (store, [.readSubmissions, .readSubmissions, .updateSubmissionRows 0,
                 .readComments], none) := by
  unfold update_submissions
  rw [update_submissions_ticker_empty_range o store t d1 d2 hempty]
  dsimp only [update_submissions_nil_tickers]
  rfl

/-- Witness for the amended C6 at the empty store. -/
theorem update_submissions_empty_range_no_writes_witness :
    (emptyStore.submissions.filter (fun r =>
        decide (r.ticker = "GME" ∧ 0 ≤ r.created_utc ∧ r.created_utc ≤ 100)) = [])
    ∧ update_submissions emptyWindowOracles emptyStore ["GME"] 0 100
        = (emptyStore,
           [.readSubmissions, .readSubmissions, .updateSubmissionRows 0,
            .readComments], none) :=
  ⟨by decide,
   update_submissions_empty_range_no_writes emptyWindowOracles emptyStore
     "GME" 0 100 (by decide)⟩

theorem map_subreddit_rows_ids (stored : List SubredditRow) :
    ∀ (rows : List SubmissionRec) (ps : List ProcessedSubmission),
      map_subreddit_rows stored rows = .ok ps →
      ps.map (·.submission_id) = rows.map (·.submission_id) := by
  intro rows
  induction rows with
  | nil =>
    intro ps h
    injection h with h1
    rw [← h1]
    rfl
  | cons r rs ih =>
    intro ps h
    unfold map_subreddit_rows at h
    cases hl : lookup_subreddit_rid stored r.subreddit with
    | error e => rw [hl] at h; cases h
    | ok rid =>
      rw [hl] at h
      cases hm : map_subreddit_rows stored rs with
      | error e => rw [hm] at h; cases h
      | ok ps2 =>
        rw [hm] at h
        injection h with h1
        rw [← h1]
        simp only [List.map_cons]
        rw [ih ps2 hm]

theorem update_subreddits_submissions (o : Oracles) (store : Store)
    (l : List String) :
    ((update_subreddits o store l).1).submissions = store.submissions := by
  unfold update_subreddits
  dsimp only []
  split
  · rfl
  · rfl

theorem process_submissions_ok (o : Oracles) (store : Store)
    (rows : List SubmissionRec) (store1 : Store) (ps : List ProcessedSubmission)
    (h : process_submissions o store (.frame rows) = (store1, ps, none)) :
    store1.submissions = store.submissions
    ∧ ps.map (·.submission_id)
        = (rows.filter (fun r =>
            decide (r.submission_id ∉ store.submissions.map (·.submission_id)))).map
              (·.submission_id) := by
  unfold process_submissions at h
  dsimp only [] at h
  split at h
  · next hemp =>
    simp only [Prod.mk.injEq] at h
    obtain ⟨h1, h2, -⟩ := h
    have hfil : rows.filter (fun r =>
        decide (r.submission_id ∉ store.submissions.map (·.submission_id))) = [] :=
      List.isEmpty_iff.mp hemp
    constructor
    · rw [← h1]
    · rw [← h2, hfil]
      rfl
  · next hemp =>
    split at h
    · next store1' e heq =>
      simp at h
    · next store1' heq =>
      split at h
      · next e hm => simp at h
      · next processed' hm =>
        simp only [Prod.mk.injEq] at h
        obtain ⟨hs, hp, -⟩ := h
        constructor
        · rw [← hs]
          have h2 := update_subreddits_submissions o store
            ((rows.filter (fun r =>
              decide (r.submission_id ∉ store.submissions.map (·.submission_id)))).map
                (·.subreddit))
          rw [heq] at h2
          exact h2
        · rw [← hp]
          exact map_subreddit_rows_ids _ _ _ hm

theorem insert_values_submissions_ok_ids (store : Store)
    (values : List ProcessedSubmission) (store2 : Store)
    (h : insert_values_submissions store values = (store2, none)) :
    store2.submissions.map (·.submission_id)
      = store.submissions.map (·.submission_id) ++ values.map (·.submission_id) := by
  obtain ⟨h1, h2⟩ :=
    applyInsertSubmissions_spec values store.submissions store.nextSubmissionId
  have e2 : (applyInsertSubmissions store.submissions store.nextSubmissionId
      values).2.2 = none := by
    show (insert_values_submissions store values).2 = none
    rw [h]
  have h3 := h2.mp e2
  rw [h3] at h1
  have e1 : (applyInsertSubmissions store.submissions store.nextSubmissionId
      values).1 = store2.submissions := by
    show (insert_values_submissions store values).1.submissions = store2.submissions
    rw [h]
  rw [e1] at h1
  exact h1

theorem process_submissions_all_stored (o : Oracles) (store : Store)
    (rows : List SubmissionRec)
    (hall : ∀ r ∈ rows,
      r.submission_id ∈ store.submissions.map (·.submission_id)) :
    process_submissions o store (.frame rows) = (store, [], none) := by
  have hnew : rows.filter (fun r =>
      decide (r.submission_id ∉ store.submissions.map (·.submission_id))) = [] := by
    rw [List.filter_eq_nil_iff]
    intro r hr
    simp only [decide_eq_true_iff]
    exact not_not_intro (hall r hr)
  unfold process_submissions
  dsimp only []
  rw [hnew]
  rfl

/-- C8: running `fetch_data` twice with identical arguments against the same
source inserts nothing on the second run: every fetched submission id is
already persisted after the first successful run, so the dedup filter empties
the batch, `process_submissions` logs and returns, and the second invocation
leaves the store exactly as the first left it. -/
theorem fetch_data_idempotent (o : Oracles) (fuel : Nat) (s s1 : Store)
    (ticker : String) (limit : Nat) (before after : Int)
    (h : fetch_data o fuel s ticker limit before after = some (s1, none)) :
    fetch_data o fuel s1 ticker limit before after = some (s1, none) := by
  unfold fetch_data at h ⊢
  dsimp only [] at h ⊢
  cases hg : get_submissions o.pages o.subDetail
      { ticker := ticker, before := .vstr (strftime_s before),
        after := .vstr (strftime_s after), limit := limit } fuel with
  | none => rw [hg] at h; simp at h
  | some res =>
    cases res with
    | error e => rw [hg] at h; simp at h
    | ok fetched =>
      cases fetched with
      | emptyList =>
        have hpe : process_submissions o s .emptyList
            = (s, [], some .attributeError) := rfl
        rw [hg] at h
        dsimp only [] at h
        rw [hpe] at h
        simp at h
      | frame rows =>
        rw [hg] at h
        dsimp only [] at h
        rcases hp : process_submissions o s (.frame rows) with ⟨store1, processed, err⟩
        rw [hp] at h
        cases err with
        | some e => simp at h
        | none =>
          dsimp only [] at h
          obtain ⟨hsub1, hids⟩ := process_submissions_ok o s rows store1 processed hp
          by_cases hpe : processed.isEmpty = true
          · rw [if_pos hpe] at h
            simp only [Option.some.injEq, Prod.mk.injEq] at h
            obtain ⟨hs1, -⟩ := h
            have hproc_nil : processed = [] := List.isEmpty_iff.mp hpe
            have hnewids : (rows.filter (fun r =>
                decide (r.submission_id
                  ∉ s.submissions.map (·.submission_id)))).map (·.submission_id)
                = [] := by
              rw [← hids, hproc_nil]
              rfl
            have hnew := List.map_eq_nil_iff.mp hnewids
            have hall : ∀ r ∈ rows,
                r.submission_id ∈ s1.submissions.map (·.submission_id) := by
              intro r hr
              have hseq : s1.submissions = s.submissions := by
                rw [← hs1]
                exact hsub1
              rw [hseq]
              by_contra hcon
              have hmem : r ∈ rows.filter (fun r =>
                  decide (r.submission_id
                    ∉ s.submissions.map (·.submission_id))) :=
                List.mem_filter.mpr ⟨hr, decide_eq_true hcon⟩
              rw [hnew] at hmem
              cases hmem
            dsimp only []
            rw [process_submissions_all_stored o s1 rows hall]
            rfl
          · rw [if_neg hpe] at h
            rcases hi : insert_values_submissions store1 processed with ⟨store2, ierr⟩
            rw [hi] at h
            cases ierr with
            | some e => simp at h
            | none =>
              dsimp only [] at h
              have hids2 : store2.submissions.map (·.submission_id)
                  = s.submissions.map (·.submission_id)
                    ++ processed.map (·.submission_id) := by
                have hl := insert_values_submissions_ok_ids store1 processed store2 hi
                rw [hsub1] at hl
                exact hl
              have hs1sub : s1.submissions.map (·.submission_id)
                  = s.submissions.map (·.submission_id)
                    ++ processed.map (·.submission_id) := by
                by_cases hpc : (process_comments store2
                    (get_comments o (processed.map (fun x => x.submission_id)))).isEmpty
                    = true
                · rw [if_pos hpc] at h
                  simp only [Option.some.injEq, Prod.mk.injEq] at h
                  obtain ⟨h2, -⟩ := h
                  rw [← h2]
                  exact hids2
                · rw [if_neg hpc] at h
                  rcases hic : insert_values_comments store2
                      (process_comments store2
                        (get_comments o (processed.map (fun x => x.submission_id))))
                    with ⟨store3, cerr⟩
                  rw [hic] at h
                  simp only [Option.some.injEq, Prod.mk.injEq] at h
                  obtain ⟨h3, -⟩ := h
                  rw [← h3]
                  have hcs : store3.submissions = store2.submissions := by
                    have hh := insert_values_comments_submissions store2
                      (process_comments store2
                        (get_comments o (processed.map (fun x => x.submission_id))))
                    rw [hic] at hh
                    exact hh
                  rw [hcs]
                  exact hids2
              have hall : ∀ r ∈ rows,
                  r.submission_id ∈ s1.submissions.map (·.submission_id) := by
                intro r hr
                rw [hs1sub]
                by_cases hmem : r.submission_id ∈ s.submissions.map (·.submission_id)
                · exact List.mem_append.mpr (Or.inl hmem)
                · refine List.mem_append.mpr (Or.inr ?_)
                  rw [hids]
                  exact List.mem_map_of_mem _
                    (List.mem_filter.mpr ⟨hr, decide_eq_true hmem⟩)
              dsimp only []
              rw [process_submissions_all_stored o s1 rows hall]
              rfl

/-- Witness for C8: the happy-path run against the empty store, then the same
run against its result. -/
theorem fetch_data_idempotent_witness :
    fetch_data happyOracles 3 emptyStore "GME" 1 100 0 = some (happyStore, none)
    ∧ fetch_data happyOracles 3 happyStore "GME" 1 100 0 = some (happyStore, none) :=
  ⟨by decide,
   fetch_data_idempotent happyOracles 3 emptyStore happyStore "GME" 1 100 0
     (by decide)⟩
